import Mathlib

/-!
# Verification of the meteomatics rust-connector-api query builders and decoders

A shallow embedding, in Lean, of the query-string construction, response
decoding and file-sink logic of `meteomatics/src/util.rs`,
`meteomatics/src/client.rs`, `meteomatics/src/location.rs` and
`meteomatics/src/errors.rs`.

Modelling conventions:
* Rust `String` is Lean `String`; byte payloads are modelled as `String`.
* `chrono::DateTime<Utc>` is modelled as the record of displayed fields
  (`UtcDateTime`); `to_rfc3339` follows chrono 0.4 (`SecondsFormat::AutoSi`,
  numeric `+00:00` offset).
* `chrono::Duration` is modelled by its `secs`/`nanos` pair, with the
  `fmt::Display` implementation of chrono 0.4 translated verbatim.
* A Rust panic (`Option::unwrap` on `None`) is modelled by returning `none`
  from an `Option`-valued embedding.
* The f64 coordinate fields of `Point` and `BBox` are kept generic in a
  scalar type `α` together with the Rust float-to-string rendering `toStr`
  (Rust's `f64::Display` is an external collaborator; on integer-valued
  doubles it agrees with integer printing, which the concrete instances use).
* The HTTP transport is a stub: the facade methods take the value that
  `do_http_get` would have produced (`HttpResult`).
-/

namespace Meteomatics

/-- Splits a character list at every occurrence of `sep`; the accumulator
holds the (reversed) characters of the current field.  Mirrors the
behaviour of Rust's `str::split` / the line- and field-splitting done by
the CSV reader. -/
def splitAux (sep : Char) : List Char → List Char → List (List Char)
  | [], acc => [acc.reverse]
  | c :: cs, acc =>
    if c = sep then acc.reverse :: splitAux sep cs []
    else splitAux sep cs (c :: acc)

/-- Splits a string at every occurrence of the character `sep`. -/
def splitStr (sep : Char) (s : String) : List String :=
  (splitAux sep s.data []).map fun cs => ⟨cs⟩

/-- Left-pads the decimal rendering of `n` with zeros to `width` digits,
like Rust's `{:0width}` format specifier. -/
def zeroPad (width : Nat) (n : Nat) : String :=
  let s := toString n
  ⟨List.replicate (width - s.length) '0'⟩ ++ s

/-- `chrono::DateTime<chrono::Utc>`, modelled as the record of its displayed
calendar fields.  Invariant carried by chrono: `nano < 1000000000`. -/
structure UtcDateTime where
  year : Nat
  month : Nat
  day : Nat
  hour : Nat
  minute : Nat
  second : Nat
  nano : Nat
deriving DecidableEq, Repr

/-- The fractional-seconds part printed by chrono's
`SecondsFormat::AutoSi`: nothing for whole seconds, three digits on a
millisecond boundary, six on a microsecond boundary, all nine otherwise. -/
def fractionAutoSi (nano : Nat) : String :=
  if nano = 0 then ""
  else if nano % 1000000 = 0 then "." ++ zeroPad 3 (nano / 1000000)
  else if nano % 1000 = 0 then "." ++ zeroPad 6 (nano / 1000)
  else "." ++ zeroPad 9 nano

/-- `DateTime::<Utc>::to_rfc3339` of chrono 0.4: RFC3339 with `AutoSi`
sub-second digits and the numeric `+00:00` offset. -/
def UtcDateTime.to_rfc3339 (t : UtcDateTime) : String :=
  zeroPad 4 t.year ++ "-" ++ zeroPad 2 t.month ++ "-" ++ zeroPad 2 t.day ++ "T" ++
  zeroPad 2 t.hour ++ ":" ++ zeroPad 2 t.minute ++ ":" ++ zeroPad 2 t.second ++
  fractionAutoSi t.nano ++ "+00:00"

/-- `chrono::Duration`: a signed number of seconds plus a sub-second
nanosecond part `0 ≤ nanos < 1000000000`. -/
structure Duration where
  secs : Int
  nanos : Nat
deriving DecidableEq, Repr

/-- Negation of a `chrono::Duration` (used by its `Display` for negative
durations): borrows one second when the nanosecond part is non-zero. -/
def Duration.neg (d : Duration) : Duration :=
  if d.nanos = 0 then ⟨-d.secs, 0⟩ else ⟨-d.secs - 1, 1000000000 - d.nanos⟩

/-- The `fmt::Display` implementation of `chrono::Duration` (chrono 0.4),
translated clause by clause: sign, `P`, a days component when the absolute
duration reaches a day, and a `T…S` time component carrying the remaining
seconds with millisecond/microsecond/nanosecond fractional digits. -/
def Duration.display (d : Duration) : String :=
  let abs := if d.secs < 0 then d.neg else d
  let sign := if d.secs < 0 then "-" else ""
  let n := abs.secs.toNat
  let days := n / 86400
  let secs := n % 86400
  let hasdate := days ≠ 0
  let hastime := (secs ≠ 0 ∨ abs.nanos ≠ 0) ∨ ¬hasdate
  sign ++ "P" ++
  (if hasdate then toString days ++ "D" else "") ++
  (if hastime then
    if abs.nanos = 0 then "T" ++ toString secs ++ "S"
    else if abs.nanos % 1000000 = 0 then
      "T" ++ toString secs ++ "." ++ zeroPad 3 (abs.nanos / 1000000) ++ "S"
    else if abs.nanos % 1000 = 0 then
      "T" ++ toString secs ++ "." ++ zeroPad 6 (abs.nanos / 1000) ++ "S"
    else "T" ++ toString secs ++ "." ++ zeroPad 9 abs.nanos ++ "S"
  else "")

/-- `meteomatics::TimeSeries` (util.rs): start, end and an optional step. -/
structure TimeSeries where
  start : UtcDateTime
  «end» : UtcDateTime
  timedelta : Option Duration
deriving DecidableEq, Repr

/-- The `fmt::Display` implementation for `TimeSeries` (util.rs):
`"{start}--{end}:{timedelta.unwrap()}"`.  The `unwrap` panics when
`timedelta` is `None`, modelled by `none`. -/
def TimeSeries.display (ts : TimeSeries) : Option String :=
  match ts.timedelta with
  | none => none
  | some d => some (ts.start.to_rfc3339 ++ "--" ++ ts.«end».to_rfc3339 ++ ":" ++ d.display)

/-- `location.rs` `Point`, generic in the f64 scalar type. -/
structure Point (α : Type) where
  lat : α
  lon : α
deriving DecidableEq, Repr

/-- The `fmt::Display` implementation for `Point`: `"{lat},{lon}"`, with
`toStr` standing for Rust's `f64::to_string`. -/
def Point.display {α : Type} (toStr : α → String) (p : Point α) : String :=
  toStr p.lat ++ "," ++ toStr p.lon

/-- `location.rs` `BBox`, generic in the f64 scalar type. -/
structure BBox (α : Type) where
  lat_min : α
  lat_max : α
  lon_min : α
  lon_max : α
  lat_res : α
  lon_res : α
deriving DecidableEq, Repr

/-- The `fmt::Display` implementation for `BBox`:
`"{lat_max},{lon_min}_{lat_min},{lon_max}:{lat_res},{lon_res}"`. -/
def BBox.display {α : Type} (toStr : α → String) (b : BBox α) : String :=
  toStr b.lat_max ++ "," ++ toStr b.lon_min ++ "_" ++
  toStr b.lat_min ++ "," ++ toStr b.lon_max ++ ":" ++
  toStr b.lat_res ++ "," ++ toStr b.lon_res

/-- `util.rs` `points_to_str`: renders each point and joins with `+`. -/
def points_to_str {α : Type} (toStr : α → String) (coords : List (Point α)) : String :=
  String.intercalate "+" (coords.map (Point.display toStr))

/-- `util.rs` `build_ts_query_specs`: `"{time_series}/{parameters.join(",")}
/{coords_str}/{format}"`, then `"?{optionals.join("&")}"` appended whenever
`optionals` is `Some`.  `none` records the panic of the `TimeSeries`
`Display` when `timedelta` is absent. -/
def build_ts_query_specs (time_series : TimeSeries) (parameters : List String)
    (coords_str : String) (optionals : Option (List String)) (format : String) :
    Option String :=
  (time_series.display).map fun ts =>
    let query_specs := ts ++ "/" ++ String.intercalate "," parameters ++ "/" ++
      coords_str ++ "/" ++ format
    match optionals with
    | none => query_specs
    | some opts => query_specs ++ "?" ++ String.intercalate "&" opts

/-- `util.rs` `build_grid_query_specs`: like `build_ts_query_specs` but for a
single instant and a single pre-joined parameter string; total. -/
def build_grid_query_specs (timestamp : UtcDateTime) (parameter : String)
    (coords_str : String) (optionals : Option (List String)) (format : String) :
    String :=
  let query_specs := timestamp.to_rfc3339 ++ "/" ++ parameter ++ "/" ++
    coords_str ++ "/" ++ format
  match optionals with
  | none => query_specs
  | some opts => query_specs ++ "?" ++ String.intercalate "&" opts

/-- `util.rs` `build_grid_ts_query_specs`: the grid time-series variant;
formats the `TimeSeries`, hence panics (`none`) when `timedelta` is absent. -/
def build_grid_ts_query_specs (time_series : TimeSeries) (parameter : String)
    (coords_str : String) (format : String) (optionals : Option (List String)) :
    Option String :=
  (time_series.display).map fun ts =>
    let query_specs := ts ++ "/" ++ parameter ++ "/" ++ coords_str ++ "/" ++ format
    match optionals with
    | none => query_specs
    | some opts => query_specs ++ "?" ++ String.intercalate "&" opts

/-- `util.rs` `build_grid_ts_lightning_query_specs`: the fixed lightning
endpoint shape; uses `start`/`end` directly (never the `timedelta`),
hence total. -/
def build_grid_ts_lightning_query_specs (time_series : TimeSeries)
    (coords_str : String) : String :=
  "get_lightning_list?time_range=" ++ time_series.start.to_rfc3339 ++ "--" ++
  time_series.«end».to_rfc3339 ++ "&bounding_box=" ++ coords_str ++ "&format=csv"

/-- `util.rs` `build_route_query_specs`: `"{dates}/{parameters}/{coords}/csv?route=true"`. -/
def build_route_query_specs (dates : String) (parameters : String)
    (coords_str : String) : String :=
  dates ++ "/" ++ parameters ++ "/" ++ coords_str ++ "/csv?route=true"

/-- The bounding-box string built inline by `client.rs` `query_lightning`:
`"{lat_max},{lon_min}_{lat_min},{lon_max}"` — unlike `BBox`'s `Display`,
no `:{lat_res},{lon_res}` suffix. -/
def lightning_coords_str {α : Type} (toStr : α → String) (bbox : BBox α) : String :=
  toStr bbox.lat_max ++ "," ++ toStr bbox.lon_min ++ "_" ++
  toStr bbox.lat_min ++ "," ++ toStr bbox.lon_max

/-- `errors.rs` `ConnectorError`, with the payloads the call sites in
`client.rs` construct. -/
inductive ConnectorError where
  | ReqwestError (msg : String)
  | HttpError (statusText : String) (body : String) (status : Nat)
  | LibraryError (msg : String)
  | PolarsError (msg : String)
  | ParseError
  | FileIOError
deriving DecidableEq, Repr

/-- The canonical reason phrases of `reqwest::StatusCode` for the codes
exercised here (abridged table; unknown codes have no phrase). -/
def canonicalReason (status : Nat) : Option String :=
  match status with
  | 200 => some "OK"
  | 400 => some "Bad Request"
  | 401 => some "Unauthorized"
  | 403 => some "Forbidden"
  | 404 => some "Not Found"
  | 500 => some "Internal Server Error"
  | _ => none

/-- `reqwest::StatusCode::to_string()`: `"{code} {canonical_reason}"`. -/
def statusLine (status : Nat) : String :=
  toString status ++ " " ++ (canonicalReason status).getD "<unknown status code>"

/-- The outcome of `do_http_get`: either a well-formed HTTP response
(status code and body text) or a transport-level `reqwest` error. -/
inductive HttpResult where
  | ok (status : Nat) (body : String)
  | err (msg : String)
deriving DecidableEq, Repr

/-- A cell of a polars DataFrame as it occurs in this client: a value
parsed from CSV text (tagged with the inferred dtype) or an f64/utf8 value
synthesized by `df_add_latlon`/`df_add_postal`. -/
inductive AnyValue (α : Type) where
  | int64 : Int → AnyValue α
  | floatOfStr : String → AnyValue α
  | utf8 : String → AnyValue α
  | float64 : α → AnyValue α
deriving DecidableEq, Repr

/-- A named polars `Series`. -/
structure Series (α : Type) where
  name : String
  values : List (AnyValue α)
deriving DecidableEq, Repr

/-- A polars `DataFrame`: an ordered list of named columns. -/
structure DataFrame (α : Type) where
  columns : List (Series α)
deriving DecidableEq, Repr

/-- `DataFrame::height`: the length of the first column (0 when empty). -/
def DataFrame.height {α : Type} (df : DataFrame α) : Nat :=
  match df.columns with
  | [] => 0
  | c :: _ => c.values.length

/-- Whether the frame has a column of the given name. -/
def DataFrame.hasCol {α : Type} (df : DataFrame α) (name : String) : Bool :=
  df.columns.any fun c => c.name = name

/-- `DataFrame::rename(old, new)`: renames the column called `old`
(exact name match), erring like polars when no such column exists. -/
def DataFrame.rename {α : Type} (df : DataFrame α) (old new : String) :
    Except String (DataFrame α) :=
  if df.hasCol old then
    .ok ⟨df.columns.map fun c => if c.name = old then { c with name := new } else c⟩
  else .error "PolarsError: column not found"

/-- Is the string an optional minus sign followed by one or more decimal
digits (Rust `i64::from_str` on CSV fields, as polars' schema inference
accepts them)? -/
def isIntStr (s : String) : Bool :=
  match s.data with
  | [] => false
  | '-' :: ds => !ds.isEmpty && ds.all Char.isDigit
  | ds => ds.all Char.isDigit

/-- Digits with at most one decimal point and an optional minus sign: the
plain-decimal fragment of Rust `f64::from_str` used by polars' inference
(scientific notation and the `inf`/`NaN` spellings are not modelled;
unmodelled numeric spellings conservatively fall back to utf8). -/
def isFloatStr (s : String) : Bool :=
  let core := fun (ds : List Char) =>
    match splitAux '.' ds [] with
    | [as] => !as.isEmpty && as.all Char.isDigit
    | [as, bs] => !(as.isEmpty && bs.isEmpty) && as.all Char.isDigit && bs.all Char.isDigit
    | _ => false
  match s.data with
  | '-' :: ds => core ds
  | ds => core ds

/-- Parses an `isIntStr` string to the integer it denotes. -/
def parseIntStr (s : String) : Int :=
  match s.data with
  | '-' :: ds => -(ds.foldl (fun n c => 10 * n + (c.toNat - '0'.toNat)) 0 : Nat)
  | ds => (ds.foldl (fun n c => 10 * n + (c.toNat - '0'.toNat)) 0 : Nat)

/-- polars schema inference for one column (util.rs readers use
`infer_schema(Some(100))`; modelled over all rows, which agrees on the
bodies considered here): all-integer fields give `i64`, otherwise
all-numeric fields give `f64`, otherwise the raw text is kept as utf8. -/
def inferCol {α : Type} (fields : List String) : List (AnyValue α) :=
  if fields.all isIntStr then fields.map fun s => .int64 (parseIntStr s)
  else if fields.all isFloatStr then fields.map fun s => .floatOfStr s
  else fields.map fun s => .utf8 s

/-- Splits a response body into its lines. -/
def bodyLines (s : String) : List String :=
  (splitAux '\n' s.data []).map fun cs => ⟨cs⟩

/-- The CSV reader configured by `util.rs`: delimiter `;`, a header row,
no date parsing, parser errors not ignored, and `skip_rows` leading lines
dropped before the header.  Ragged rows are a polars parse error; blank
lines are skipped. -/
def csvRead (α : Type) (skipRows : Nat) (body : String) :
    Except String (DataFrame α) :=
  let ls := (bodyLines body).drop skipRows
  match ls.filter (fun l => l ≠ "") with
  | [] => .error "PolarsError: no data"
  | header :: rows =>
    let names := splitStr ';' header
    let fields := rows.map (splitStr ';')
    if fields.all (fun r => r.length = names.length) then
      .ok ⟨(List.range names.length).map fun i =>
        { name := names.getD i "",
          values := inferCol (fields.map fun r => r.getD i "") }⟩
    else .error "PolarsError: row length mismatch"

/-- `util.rs` `parse_response_to_df`: the tidy-CSV reader (no rows skipped). -/
def parse_response_to_df (α : Type) (body : String) : Except String (DataFrame α) :=
  csvRead α 0 body

/-- `util.rs` `parse_grid_response_to_df`: identical reader but with
`with_skip_rows(2)` — the two metadata lines of a pivoted grid response. -/
def parse_grid_response_to_df (α : Type) (body : String) : Except String (DataFrame α) :=
  csvRead α 2 body

/-- `util.rs` `df_add_latlon`: prepends constant `lat`/`lon` f64 columns of
the frame's height, holding the single point's coordinates. -/
def df_add_latlon {α : Type} (df_in : DataFrame α) (point : Point α) : DataFrame α :=
  let n := df_in.height
  ⟨{ name := "lat", values := List.replicate n (.float64 point.lat) } ::
   { name := "lon", values := List.replicate n (.float64 point.lon) } ::
   df_in.columns⟩

/-- `util.rs` `df_add_postal`: prepends a constant utf8 `station_id`
column of the frame's height holding the single postal code. -/
def df_add_postal {α : Type} (df_in : DataFrame α) (postal : String) : DataFrame α :=
  let n := df_in.height
  ⟨{ name := "station_id", values := List.replicate n (.utf8 postal) } :: df_in.columns⟩

/-- The filesystem state touched by the binary sink: existing directories
and files (path with contents). -/
structure FileSystem where
  dirs : List String
  files : List (String × String)
deriving DecidableEq, Repr

/-- `std::path::Path::parent` on the paths used here: `none` for `""` and
`"/"` (where `create_path`'s `unwrap` panics), the prefix before the last
`/` otherwise (`""` for a bare file name, `"/"` directly under the root). -/
def parentDir (p : String) : Option String :=
  if p = "" ∨ p = "/" then none
  else
    let parts := splitStr '/' p
    let pre := String.intercalate "/" parts.dropLast
    if pre = "" ∧ p.data.head? = some '/' then some "/" else some pre

/-- `util.rs` `create_path`: takes the destination's parent directory
(`unwrap` panics — `none` — when there is none) and creates it unless it
already exists (`fs::create_dir_all`, modelled as always succeeding). -/
def create_path (fs : FileSystem) (file_name : String) : Option FileSystem :=
  (parentDir file_name).map fun dir =>
    if fs.dirs.contains dir then fs else { fs with dirs := dir :: fs.dirs }

/-- `util.rs` `write_file`: creates/truncates the destination and copies
the whole response body into it. -/
def write_file (fs : FileSystem) (file_name : String) (body : String) : FileSystem :=
  { fs with files := (file_name, body) :: fs.files.filter fun kv => kv.1 ≠ file_name }

/-- `util.rs` `Limit`: one request-quota record. -/
structure Limit where
  used : Nat
  soft_lim : Nat
  hard_lim : Nat
deriving DecidableEq, Repr

/-- `util.rs` `UserStats`: the account-statistics record. -/
structure UserStats where
  username : String
  total : Limit
  since_midnight : Limit
  since_0 : Limit
  since_60s : Limit
  parallel : Limit
  hist : String
  area : Bool
  models : List String
  error : String
  contact : List String
deriving DecidableEq, Repr

/-- `util.rs` `UStatsResponse`: message plus user statistics. -/
structure UStatsResponse where
  message : String
  stats : UserStats
deriving DecidableEq, Repr

/-- `util.rs` `extract_user_statistics`: serde-JSON decoding of the body
(`decode` stands for the external `serde_json` deserializer); a decode
failure is wrapped — as in the source — as `ReqwestError`. -/
def extract_user_statistics (decode : String → Except String UStatsResponse)
    (body : String) : Except ConnectorError UStatsResponse :=
  match decode body with
  | .ok json => .ok json
  | .error e => .error (.ReqwestError e)

/-- `client.rs` `query_time_series`.  `result` is the value `do_http_get`
returned.  On a 200 response the body is CSV-parsed; for a singleton
coordinate list the `lat`/`lon` columns are synthesized
(`coordinates.get(0).unwrap()` panics — `none` — on an empty list, and the
`TimeSeries` formatting panics when `timedelta` is absent). -/
def query_time_series {α : Type} (result : HttpResult) (toStr : α → String)
    (time_series : TimeSeries) (parameters : List String)
    (coordinates : List (Point α)) (optionals : Option (List String)) :
    Option (Except ConnectorError (DataFrame α)) :=
  let needs_latlon : Bool := coordinates.length == 1
  let coords_str := points_to_str toStr coordinates
  (build_ts_query_specs time_series parameters coords_str optionals "csv").bind
    fun _query_specs =>
      match result with
      | .err e => some (.error (.ReqwestError e))
      | .ok status body =>
        if status = 200 then
          match parse_response_to_df α body with
          | .error e => some (.error (.PolarsError e))
          | .ok df =>
            if needs_latlon then
              coordinates.head?.map fun p => .ok (df_add_latlon df p)
            else some (.ok df)
        else some (.error (.HttpError (statusLine status) body status))

/-- `client.rs` `query_time_series_postal`: like `query_time_series` but
locations are postal-code strings and the singleton synthesis adds the
`station_id` column. -/
def query_time_series_postal {α : Type} (result : HttpResult)
    (time_series : TimeSeries) (parameters : List String)
    (postals : List String) (optionals : Option (List String)) :
    Option (Except ConnectorError (DataFrame α)) :=
  let needs_latlon : Bool := postals.length == 1
  let coords_str := String.intercalate "+" postals
  (build_ts_query_specs time_series parameters coords_str optionals "csv").bind
    fun _query_specs =>
      match result with
      | .err e => some (.error (.ReqwestError e))
      | .ok status body =>
        if status = 200 then
          match parse_response_to_df α body with
          | .error e => some (.error (.PolarsError e))
          | .ok df =>
            if needs_latlon then
              postals.head?.map fun postal => .ok (df_add_postal df postal)
            else some (.ok df)
        else some (.error (.HttpError (statusLine status) body status))

/-- `client.rs` `query_lightning`: builds the resolution-less bounding-box
string, queries the lightning endpoint, CSV-parses a 200 body and renames
the three stroke columns to `validdate`/`lat`/`lon`. -/
def query_lightning {α : Type} (result : HttpResult) (toStr : α → String)
    (time_series : TimeSeries) (bbox : BBox α) :
    Except ConnectorError (DataFrame α) :=
  let coords_str := lightning_coords_str toStr bbox
  let _query_specs := build_grid_ts_lightning_query_specs time_series coords_str
  match result with
  | .err e => .error (.ReqwestError e)
  | .ok status body =>
    if status = 200 then
      match parse_response_to_df α body with
      | .error e => .error (.PolarsError e)
      | .ok df =>
        match df.rename "stroke_time:sql" "validdate" with
        | .error e => .error (.PolarsError e)
        | .ok df =>
          match df.rename "stroke_lat:d" "lat" with
          | .error e => .error (.PolarsError e)
          | .ok df =>
            match df.rename "stroke_lon:d" "lon" with
            | .error e => .error (.PolarsError e)
            | .ok df => .ok df
    else .error (.HttpError (statusLine status) body status)

/-- `client.rs` `query_user_features`: JSON decode on 200, `HttpError`
otherwise. -/
def query_user_features (result : HttpResult)
    (decode : String → Except String UStatsResponse) :
    Except ConnectorError UStatsResponse :=
  match result with
  | .err e => .error (.ReqwestError e)
  | .ok status body =>
    if status = 200 then extract_user_statistics decode body
    else .error (.HttpError (statusLine status) body status)

/-- `client.rs` `query_grid_pivoted`: renders the `BBox`, queries, and on
200 parses with the 2-row-skipping grid reader. -/
def query_grid_pivoted {α : Type} (result : HttpResult) (toStr : α → String)
    (timestamp : UtcDateTime) (parameter : String) (bbox : BBox α)
    (optionals : Option (List String)) :
    Except ConnectorError (DataFrame α) :=
  let _query_specs := build_grid_query_specs timestamp parameter
    (BBox.display toStr bbox) optionals "csv"
  match result with
  | .err e => .error (.ReqwestError e)
  | .ok status body =>
    if status = 200 then
      match parse_grid_response_to_df α body with
      | .error e => .error (.PolarsError e)
      | .ok df => .ok df
    else .error (.HttpError (statusLine status) body status)

/-- `client.rs` `query_grid_unpivoted`: tidy-CSV parse of a 200 body. -/
def query_grid_unpivoted {α : Type} (result : HttpResult) (toStr : α → String)
    (timestamp : UtcDateTime) (parameters : List String) (bbox : BBox α)
    (optionals : Option (List String)) :
    Except ConnectorError (DataFrame α) :=
  let _query_specs := build_grid_query_specs timestamp
    (String.intercalate "," parameters) (BBox.display toStr bbox) optionals "csv"
  match result with
  | .err e => .error (.ReqwestError e)
  | .ok status body =>
    if status = 200 then
      match parse_response_to_df α body with
      | .error e => .error (.PolarsError e)
      | .ok df => .ok df
    else .error (.HttpError (statusLine status) body status)

/-- `client.rs` `query_grid_unpivoted_time_series`: formats the
`TimeSeries` (panic — `none` — when `timedelta` is absent), then
tidy-CSV parse of a 200 body. -/
def query_grid_unpivoted_time_series {α : Type} (result : HttpResult)
    (toStr : α → String) (time_series : TimeSeries) (parameters : List String)
    (bbox : BBox α) (optionals : Option (List String)) :
    Option (Except ConnectorError (DataFrame α)) :=
  (build_ts_query_specs time_series parameters (BBox.display toStr bbox)
      optionals "csv").bind
    fun _query_specs =>
      match result with
      | .err e => some (.error (.ReqwestError e))
      | .ok status body =>
        if status = 200 then
          match parse_response_to_df α body with
          | .error e => some (.error (.PolarsError e))
          | .ok df => some (.ok df)
        else some (.error (.HttpError (statusLine status) body status))

/-- `client.rs` `query_netcdf`: creates the destination's parent directory
first (before any request — panic when the path has no parent), then on a
200 response writes the payload; every other outcome leaves the files
untouched and returns the error. -/
def query_netcdf {α : Type} (result : HttpResult) (toStr : α → String)
    (time_series : TimeSeries) (parameter : String) (bbox : BBox α)
    (file_name : String) (optionals : Option (List String)) (fs : FileSystem) :
    Option (FileSystem × Except ConnectorError Unit) :=
  (create_path fs file_name).bind fun fs1 =>
    (build_grid_ts_query_specs time_series parameter (BBox.display toStr bbox)
        "netcdf" optionals).map fun _query_specs =>
      match result with
      | .err e => (fs1, .error (.ReqwestError e))
      | .ok status body =>
        if status = 200 then (write_file fs1 file_name body, .ok ())
        else (fs1, .error (.HttpError (statusLine status) body status))

/-- `client.rs` `query_grid_png`: like `query_netcdf` but for the
single-instant png endpoint (total fragment building). -/
def query_grid_png {α : Type} (result : HttpResult) (toStr : α → String)
    (date : UtcDateTime) (parameter : String) (bbox : BBox α)
    (file_name : String) (optionals : Option (List String)) (fs : FileSystem) :
    Option (FileSystem × Except ConnectorError Unit) :=
  (create_path fs file_name).map fun fs1 =>
    let _query_specs := build_grid_query_specs date parameter
      (BBox.display toStr bbox) optionals "png"
    match result with
    | .err e => (fs1, .error (.ReqwestError e))
    | .ok status body =>
      if status = 200 then (write_file fs1 file_name body, .ok ())
      else (fs1, .error (.HttpError (statusLine status) body status))

/-- `client.rs` `route_query_points`: joins dates with `,`, points with
`+`, parameters with `,`, queries the route endpoint and tidy-CSV parses a
200 body. -/
def route_query_points {α : Type} (result : HttpResult) (toStr : α → String)
    (dates : List UtcDateTime) (points : List (Point α)) (params : List String) :
    Except ConnectorError (DataFrame α) :=
  let dates_str := String.intercalate "," (dates.map UtcDateTime.to_rfc3339)
  let points_str := String.intercalate "+" (points.map (Point.display toStr))
  let params_str := String.intercalate "," params
  let _query_specs := build_route_query_specs dates_str params_str points_str
  match result with
  | .err e => .error (.ReqwestError e)
  | .ok status body =>
    if status = 200 then
      match parse_response_to_df α body with
      | .error e => .error (.PolarsError e)
      | .ok df => .ok df
    else .error (.HttpError (statusLine status) body status)

/-- `client.rs` `route_query_postal`: the postal-code variant of the route
query. -/
def route_query_postal (α : Type) (result : HttpResult)
    (dates : List UtcDateTime) (pcodes : List String) (params : List String) :
    Except ConnectorError (DataFrame α) :=
  let dates_str := String.intercalate "," (dates.map UtcDateTime.to_rfc3339)
  let points_str := String.intercalate "+" pcodes
  let params_str := String.intercalate "," params
  let _query_specs := build_route_query_specs dates_str params_str points_str
  match result with
  | .err e => .error (.ReqwestError e)
  | .ok status body =>
    if status = 200 then
      match parse_response_to_df α body with
      | .error e => .error (.PolarsError e)
      | .ok df => .ok df
    else .error (.HttpError (statusLine status) body status)

/-! ## Theorems -/

/-- Helper: a sub-day, non-negative, whole-second `chrono::Duration`
displays as `PT{total_seconds}S`. -/
theorem duration_display_subday (d : Duration) (h0 : 0 ≤ d.secs)
    (h1 : d.secs < 86400) (h2 : d.nanos = 0) :
    d.display = "PT" ++ toString d.secs.toNat ++ "S" := by
  have hneg : ¬ d.secs < 0 := by omega
  have hn : d.secs.toNat < 86400 := by omega
  have hdays : d.secs.toNat / 86400 = 0 := Nat.div_eq_of_lt hn
  have hmod : d.secs.toNat % 86400 = d.secs.toNat := Nat.mod_eq_of_lt hn
  unfold Duration.display
  simp only [if_neg hneg, h2, hdays, hmod]
  simp [← String.append_assoc]

/-- C7 (confirmed): every `BBox` renders as
`"{lat_max},{lon_min}_{lat_min},{lon_max}:{lat_res},{lon_res}"` — NW
corner, then SE corner, then resolution — and in particular the box
`{lat_min := -90, lat_max := 90, lon_min := -180, lon_max := 180,
lat_res := 5, lon_res := 5}` renders exactly as `"90,-180_-90,180:5,5"`. -/
theorem c7_bbox_rendering :
    (∀ (α : Type) (toStr : α → String) (b : BBox α),
      BBox.display toStr b =
        toStr b.lat_max ++ "," ++ toStr b.lon_min ++ "_" ++
        toStr b.lat_min ++ "," ++ toStr b.lon_max ++ ":" ++
        toStr b.lat_res ++ "," ++ toStr b.lon_res) ∧
    BBox.display (fun n : Int => toString n)
      { lat_min := -90, lat_max := 90, lon_min := -180, lon_max := 180,
        lat_res := 5, lon_res := 5 } = "90,-180_-90,180:5,5" :=
  ⟨fun _ _ _ => rfl, by decide⟩

/-- C10 (confirmed): `query_lightning` renders the bounding box as
`"{lat_max},{lon_min}_{lat_min},{lon_max}"` with no resolution suffix, so
two boxes differing only in `lat_res`/`lon_res` give identical lightning
request fragments. -/
theorem c10_lightning_no_resolution :
    (∀ (α : Type) (toStr : α → String) (b : BBox α),
      lightning_coords_str toStr b =
        toStr b.lat_max ++ "," ++ toStr b.lon_min ++ "_" ++
        toStr b.lat_min ++ "," ++ toStr b.lon_max) ∧
    (∀ (α : Type) (toStr : α → String) (ts : TimeSeries) (b1 b2 : BBox α),
      b1.lat_max = b2.lat_max → b1.lon_min = b2.lon_min →
      b1.lat_min = b2.lat_min → b1.lon_max = b2.lon_max →
      build_grid_ts_lightning_query_specs ts (lightning_coords_str toStr b1) =
        build_grid_ts_lightning_query_specs ts (lightning_coords_str toStr b2)) := by
  refine ⟨fun _ _ _ => rfl, fun α toStr ts b1 b2 h1 h2 h3 h4 => ?_⟩
  simp [lightning_coords_str, h1, h2, h3, h4]

/-- C10 witness: two concrete boxes over the same corners but different
resolutions produce the same lightning fragment. -/
theorem c10_lightning_no_resolution_witness :
    build_grid_ts_lightning_query_specs
      ⟨⟨2022, 5, 20, 10, 0, 0, 0⟩, ⟨2022, 5, 21, 10, 0, 0, 0⟩, none⟩
      (lightning_coords_str (fun n : Int => toString n)
        { lat_min := 45, lat_max := 47, lon_min := 5, lon_max := 10,
          lat_res := 5, lon_res := 5 }) =
    build_grid_ts_lightning_query_specs
      ⟨⟨2022, 5, 20, 10, 0, 0, 0⟩, ⟨2022, 5, 21, 10, 0, 0, 0⟩, none⟩
      (lightning_coords_str (fun n : Int => toString n)
        { lat_min := 45, lat_max := 47, lon_min := 5, lon_max := 10,
          lat_res := 1, lon_res := 2 }) :=
  c10_lightning_no_resolution.2 Int (fun n : Int => toString n)
    ⟨⟨2022, 5, 20, 10, 0, 0, 0⟩, ⟨2022, 5, 21, 10, 0, 0, 0⟩, none⟩
    _ _ rfl rfl rfl rfl

/-- C1 counterexample: with an optionals argument holding an empty list
(`some []`), `build_ts_query_specs` produces a fragment WITH a trailing
`?`, different from the fragment built with no optionals at all. -/
theorem c1_counterexample :
    build_ts_query_specs
        ⟨⟨2022, 5, 17, 12, 0, 0, 0⟩, ⟨2022, 5, 18, 12, 0, 0, 0⟩, some ⟨3600, 0⟩⟩
        ["t_2m:C"] "52.520551,13.461804" (some []) "csv"
      = some "2022-05-17T12:00:00+00:00--2022-05-18T12:00:00+00:00:PT3600S/t_2m:C/52.520551,13.461804/csv?" ∧
    build_ts_query_specs
        ⟨⟨2022, 5, 17, 12, 0, 0, 0⟩, ⟨2022, 5, 18, 12, 0, 0, 0⟩, some ⟨3600, 0⟩⟩
        ["t_2m:C"] "52.520551,13.461804" none "csv"
      = some "2022-05-17T12:00:00+00:00--2022-05-18T12:00:00+00:00:PT3600S/t_2m:C/52.520551,13.461804/csv" ∧
    build_ts_query_specs
        ⟨⟨2022, 5, 17, 12, 0, 0, 0⟩, ⟨2022, 5, 18, 12, 0, 0, 0⟩, some ⟨3600, 0⟩⟩
        ["t_2m:C"] "52.520551,13.461804" (some []) "csv"
      ≠ build_ts_query_specs
        ⟨⟨2022, 5, 17, 12, 0, 0, 0⟩, ⟨2022, 5, 18, 12, 0, 0, 0⟩, some ⟨3600, 0⟩⟩
        ["t_2m:C"] "52.520551,13.461804" none "csv" := by
  refine ⟨by decide, by decide, by decide⟩

/-- C1 (corrected): the query-spec builders append `"?" ++ join("&", opts)`
whenever the optionals argument is `Some` — so `some []` yields a trailing
`?` (unlike `none`, which yields none), and `some ["a=b","c=d"]` makes the
fragment end exactly in `?a=b&c=d`. -/
theorem c1_amended (ts : TimeSeries) (s : String) (hts : ts.display = some s)
    (params : List String) (parameter coords fmt : String) (t : UtcDateTime) :
    (build_ts_query_specs ts params coords none fmt =
      some (s ++ "/" ++ String.intercalate "," params ++ "/" ++ coords ++ "/" ++ fmt)) ∧
    (∀ opts, build_ts_query_specs ts params coords (some opts) fmt =
      some (s ++ "/" ++ String.intercalate "," params ++ "/" ++ coords ++ "/" ++ fmt ++
        "?" ++ String.intercalate "&" opts)) ∧
    (build_ts_query_specs ts params coords (some ["a=b", "c=d"]) fmt =
      some (s ++ "/" ++ String.intercalate "," params ++ "/" ++ coords ++ "/" ++ fmt ++
        "?a=b&c=d")) ∧
    (build_grid_query_specs t parameter coords none fmt =
      t.to_rfc3339 ++ "/" ++ parameter ++ "/" ++ coords ++ "/" ++ fmt) ∧
    (∀ opts, build_grid_query_specs t parameter coords (some opts) fmt =
      t.to_rfc3339 ++ "/" ++ parameter ++ "/" ++ coords ++ "/" ++ fmt ++
        "?" ++ String.intercalate "&" opts) ∧
    (build_grid_query_specs t parameter coords (some ["a=b", "c=d"]) fmt =
      t.to_rfc3339 ++ "/" ++ parameter ++ "/" ++ coords ++ "/" ++ fmt ++ "?a=b&c=d") ∧
    (build_grid_ts_query_specs ts parameter coords fmt none =
      some (s ++ "/" ++ parameter ++ "/" ++ coords ++ "/" ++ fmt)) ∧
    (∀ opts, build_grid_ts_query_specs ts parameter coords fmt (some opts) =
      some (s ++ "/" ++ parameter ++ "/" ++ coords ++ "/" ++ fmt ++
        "?" ++ String.intercalate "&" opts)) ∧
    (build_grid_ts_query_specs ts parameter coords fmt (some ["a=b", "c=d"]) =
      some (s ++ "/" ++ parameter ++ "/" ++ coords ++ "/" ++ fmt ++ "?a=b&c=d")) := by
  refine ⟨?_, fun opts => ?_, ?_, rfl, fun opts => rfl, ?_, ?_, fun opts => ?_, ?_⟩ <;>
    simp [build_ts_query_specs, build_grid_query_specs, build_grid_ts_query_specs,
      hts, String.append_assoc,
      show String.intercalate "&" ["a=b", "c=d"] = "a=b&c=d" from rfl]

/-- C1 witness: the amended statement applied at the concrete inputs of the
repository's own unit test. -/
theorem c1_amended_witness :
    (TimeSeries.display
        ⟨⟨2022, 5, 17, 12, 0, 0, 0⟩, ⟨2022, 5, 18, 12, 0, 0, 0⟩, some ⟨3600, 0⟩⟩ =
      some "2022-05-17T12:00:00+00:00--2022-05-18T12:00:00+00:00:PT3600S") ∧
    (build_ts_query_specs
        ⟨⟨2022, 5, 17, 12, 0, 0, 0⟩, ⟨2022, 5, 18, 12, 0, 0, 0⟩, some ⟨3600, 0⟩⟩
        ["t_2m:C"] "52.520551,13.461804" (some ["a=b", "c=d"]) "csv" =
      some ("2022-05-17T12:00:00+00:00--2022-05-18T12:00:00+00:00:PT3600S" ++ "/" ++
        String.intercalate "," ["t_2m:C"] ++ "/" ++ "52.520551,13.461804" ++ "/" ++
        "csv" ++ "?a=b&c=d")) :=
  ⟨by decide,
    (c1_amended
      ⟨⟨2022, 5, 17, 12, 0, 0, 0⟩, ⟨2022, 5, 18, 12, 0, 0, 0⟩, some ⟨3600, 0⟩⟩
      "2022-05-17T12:00:00+00:00--2022-05-18T12:00:00+00:00:PT3600S" (by decide)
      ["t_2m:C"] "t_2m:C" "52.520551,13.461804" "csv"
      ⟨2022, 5, 17, 12, 0, 0, 0⟩).2.2.1⟩

/-- C3 counterexample: `build_ts_query_specs` is not total — a `TimeSeries`
whose `timedelta` is `None` makes the `Display` implementation `unwrap` a
`None` and panic (modelled as `none`). -/
theorem c3_counterexample :
    build_ts_query_specs
        ⟨⟨2022, 5, 20, 10, 0, 0, 0⟩, ⟨2022, 5, 21, 10, 0, 0, 0⟩, none⟩
        ["t_2m:C"] "47.0,8.0" none "csv" = none ∧
    build_grid_ts_query_specs
        ⟨⟨2022, 5, 20, 10, 0, 0, 0⟩, ⟨2022, 5, 21, 10, 0, 0, 0⟩, none⟩
        "t_2m:C" "47.0,8.0" "netcdf" none = none := ⟨rfl, rfl⟩

/-- C3 (corrected): the builders that format a `TimeSeries`
(`build_ts_query_specs`, `build_grid_ts_query_specs`) return a fragment
exactly when `timedelta` is present and panic when it is `None`; the
remaining builders (`build_grid_query_specs`, `build_route_query_specs`,
`build_grid_ts_lightning_query_specs`) are total — the lightning builder
in particular never touches `timedelta`. -/
theorem c3_amended :
    (∀ (ts : TimeSeries) (d : Duration), ts.timedelta = some d →
      ∀ params parameter coords opts fmt,
        (build_ts_query_specs ts params coords opts fmt).isSome ∧
        (build_grid_ts_query_specs ts parameter coords fmt opts).isSome) ∧
    (∀ (ts : TimeSeries), ts.timedelta = none →
      ∀ params parameter coords opts fmt,
        build_ts_query_specs ts params coords opts fmt = none ∧
        build_grid_ts_query_specs ts parameter coords fmt opts = none) ∧
    (∀ t parameter coords opts fmt,
      build_grid_query_specs t parameter coords opts fmt =
        (let base := t.to_rfc3339 ++ "/" ++ parameter ++ "/" ++ coords ++ "/" ++ fmt
         match opts with
         | none => base
         | some os => base ++ "?" ++ String.intercalate "&" os)) ∧
    (∀ dates parameters coords,
      build_route_query_specs dates parameters coords =
        dates ++ "/" ++ parameters ++ "/" ++ coords ++ "/csv?route=true") ∧
    (∀ (ts : TimeSeries) coords,
      build_grid_ts_lightning_query_specs ts coords =
        "get_lightning_list?time_range=" ++ ts.start.to_rfc3339 ++ "--" ++
        ts.«end».to_rfc3339 ++ "&bounding_box=" ++ coords ++ "&format=csv") := by
  refine ⟨fun ts d hd params parameter coords opts fmt => ?_,
    fun ts hd params parameter coords opts fmt => ?_,
    fun _ _ _ _ _ => rfl, fun _ _ _ => rfl, fun _ _ => rfl⟩ <;>
    simp [build_ts_query_specs, build_grid_ts_query_specs, TimeSeries.display, hd]

/-- C3 witness: the amended statement applied at a concrete `TimeSeries`
with a present `timedelta` and at one with an absent `timedelta`. -/
theorem c3_amended_witness :
    (TimeSeries.timedelta
        ⟨⟨2022, 5, 17, 12, 0, 0, 0⟩, ⟨2022, 5, 18, 12, 0, 0, 0⟩, some ⟨3600, 0⟩⟩ =
      some ⟨3600, 0⟩) ∧
    ((build_ts_query_specs
        ⟨⟨2022, 5, 17, 12, 0, 0, 0⟩, ⟨2022, 5, 18, 12, 0, 0, 0⟩, some ⟨3600, 0⟩⟩
        ["t_2m:C"] "47.0,8.0" none "csv").isSome ∧
      (build_grid_ts_query_specs
        ⟨⟨2022, 5, 17, 12, 0, 0, 0⟩, ⟨2022, 5, 18, 12, 0, 0, 0⟩, some ⟨3600, 0⟩⟩
        "t_2m:C" "47.0,8.0" "csv" none).isSome) :=
  ⟨rfl, c3_amended.1
    ⟨⟨2022, 5, 17, 12, 0, 0, 0⟩, ⟨2022, 5, 18, 12, 0, 0, 0⟩, some ⟨3600, 0⟩⟩
    ⟨3600, 0⟩ rfl ["t_2m:C"] "t_2m:C" "47.0,8.0" none "csv"⟩

/-- C6 counterexample: a fixed step of one whole day is rendered by
chrono's `Duration` `Display` as the date-period `P1D`, not as
`PT86400S` — the step is not always expressed as total seconds. -/
theorem c6_counterexample :
    TimeSeries.display
        ⟨⟨2022, 5, 17, 12, 0, 0, 0⟩, ⟨2022, 5, 18, 12, 0, 0, 0⟩, some ⟨86400, 0⟩⟩ =
      some "2022-05-17T12:00:00+00:00--2022-05-18T12:00:00+00:00:P1D" ∧
    TimeSeries.display
        ⟨⟨2022, 5, 17, 12, 0, 0, 0⟩, ⟨2022, 5, 18, 12, 0, 0, 0⟩, some ⟨86400, 0⟩⟩ ≠
      some "2022-05-17T12:00:00+00:00--2022-05-18T12:00:00+00:00:PT86400S" :=
  ⟨by decide, by decide⟩

/-- C6 (corrected): for a fixed whole-second step of less than one day the
rendered interval is `"{start_rfc3339}--{end_rfc3339}:PT{total_seconds}S"`,
where `to_rfc3339` preserves the input's sub-second digits verbatim
(nothing for whole seconds, six digits on a microsecond boundary, all nine
digits for nanosecond inputs — in the start and end positions alike); a
step of a day or more is instead decomposed with a `{days}D` date part. -/
theorem c6_amended (ts : TimeSeries) (d : Duration) (hd : ts.timedelta = some d)
    (h0 : 0 ≤ d.secs) (h1 : d.secs < 86400) (h2 : d.nanos = 0) :
    (ts.display = some (ts.start.to_rfc3339 ++ "--" ++ ts.«end».to_rfc3339 ++ ":" ++
      ("PT" ++ toString d.secs.toNat ++ "S"))) ∧
    (∀ t : UtcDateTime, t.to_rfc3339 =
      zeroPad 4 t.year ++ "-" ++ zeroPad 2 t.month ++ "-" ++ zeroPad 2 t.day ++ "T" ++
      zeroPad 2 t.hour ++ ":" ++ zeroPad 2 t.minute ++ ":" ++ zeroPad 2 t.second ++
      fractionAutoSi t.nano ++ "+00:00") ∧
    (fractionAutoSi 0 = "") ∧
    (∀ n, n % 1000 = 0 → n % 1000000 ≠ 0 → fractionAutoSi n = "." ++ zeroPad 6 (n / 1000)) ∧
    (∀ n, n ≠ 0 → n % 1000 ≠ 0 → fractionAutoSi n = "." ++ zeroPad 9 n) ∧
    (UtcDateTime.to_rfc3339 ⟨2022, 5, 17, 12, 0, 0, 453829123⟩ =
      "2022-05-17T12:00:00.453829123+00:00") ∧
    (UtcDateTime.to_rfc3339 ⟨2022, 5, 17, 12, 0, 0, 453829000⟩ =
      "2022-05-17T12:00:00.453829+00:00") := by
  refine ⟨?_, fun t => rfl, rfl, fun n ha hb => ?_, fun n ha hb => ?_, by decide, by decide⟩
  · simp [TimeSeries.display, hd, duration_display_subday d h0 h1 h2]
  · have hn : n ≠ 0 := fun h => hb (by simp [h])
    simp [fractionAutoSi, hn, ha, hb]
  · have h6 : ¬ n % 1000000 = 0 := by omega
    simp [fractionAutoSi, ha, hb, h6]

/-- Helper: splitting a list that starts with a separator-free prefix
followed by the separator yields that prefix (after the pending
accumulator) as the first chunk. -/
theorem splitAux_append_sep (sep : Char) (xs : List Char) :
    ∀ (acc ys : List Char), (∀ c ∈ xs, c ≠ sep) →
      splitAux sep (xs ++ sep :: ys) acc =
        (acc.reverse ++ xs) :: splitAux sep ys [] := by
  induction xs with
  | nil => intro acc ys _; simp [splitAux]
  | cons c cs ih =>
    intro acc ys h
    have hc : c ≠ sep := h c (List.mem_cons_self c cs)
    simp only [List.cons_append, splitAux, if_neg hc, List.append_eq]
    rw [ih (c :: acc) ys fun d hd => h d (List.mem_cons_of_mem c hd)]
    simp

/-- Helper: the first line of `l ++ "\n" ++ r` is `l` whenever `l` itself
contains no newline. -/
theorem bodyLines_cons (l r : String) (h : ∀ c ∈ l.data, c ≠ '\n') :
    bodyLines (l ++ "\n" ++ r) = l :: bodyLines r := by
  unfold bodyLines
  have e : (l ++ "\n" ++ r).data = l.data ++ '\n' :: r.data := by
    simp [String.data_append]
  rw [e, splitAux_append_sep '\n' l.data [] r.data h]
  simp

/-- C8 (confirmed): the pivoted-grid decoder skips exactly the two leading
metadata rows, so a body of two newline-terminated metadata lines followed
by the header-and-data portion decodes to exactly what the plain decoder
produces on that portion alone. -/
theorem c8_grid_preamble_skip (α : Type) (l1 l2 rest : String)
    (h1 : ∀ c ∈ l1.data, c ≠ '\n') (h2 : ∀ c ∈ l2.data, c ≠ '\n') :
    parse_grid_response_to_df α (l1 ++ "\n" ++ l2 ++ "\n" ++ rest) =
      parse_response_to_df α rest := by
  have e : l1 ++ "\n" ++ l2 ++ "\n" ++ rest =
      l1 ++ "\n" ++ (l2 ++ "\n" ++ rest) := by
    simp [String.append_assoc]
  unfold parse_grid_response_to_df parse_response_to_df
  rw [e]
  unfold csvRead
  rw [bodyLines_cons l1 _ h1, bodyLines_cons l2 _ h2]
  rfl

/-- C8 witness: a concrete two-line preamble over a concrete
header-and-data portion. -/
theorem c8_grid_preamble_skip_witness :
    (∀ c ∈ ("Meta: model mix" : String).data, c ≠ '\n') ∧
    (∀ c ∈ ("2022-05-17T12:00:00Z" : String).data, c ≠ '\n') ∧
    parse_grid_response_to_df Int
        ("Meta: model mix" ++ "\n" ++ "2022-05-17T12:00:00Z" ++ "\n" ++
          "lat;13.4;13.5\n52.5;271.1;271.2") =
      parse_response_to_df Int "lat;13.4;13.5\n52.5;271.1;271.2" :=
  ⟨by decide, by decide,
    c8_grid_preamble_skip Int "Meta: model mix" "2022-05-17T12:00:00Z"
      "lat;13.4;13.5\n52.5;271.1;271.2" (by decide) (by decide)⟩

/-- Helper: `hasCol` in terms of membership. -/
theorem hasCol_iff {α : Type} (df : DataFrame α) (t : String) :
    df.hasCol t = true ↔ ∃ c ∈ df.columns, c.name = t := by
  simp [DataFrame.hasCol, List.any_eq_true]

/-- C9 (confirmed): when a lightning response parses to a frame holding the
three stroke columns, `query_lightning` returns the frame with exactly
those columns renamed — by name, not position — to `validdate`, `lat`,
`lon`: the three renamed names are present, the stroke names are gone, and
every other column name and all values are unchanged. -/
theorem c9_lightning_rename (α : Type) (toStr : α → String) (ts : TimeSeries)
    (bbox : BBox α) (body : String) (df : DataFrame α)
    (hparse : parse_response_to_df α body = .ok df)
    (h1 : df.hasCol "stroke_time:sql" = true)
    (h2 : df.hasCol "stroke_lat:d" = true)
    (h3 : df.hasCol "stroke_lon:d" = true) :
    ∃ df' : DataFrame α,
      query_lightning (.ok 200 body) toStr ts bbox = .ok df' ∧
      df'.columns = df.columns.map (fun c =>
        { c with name :=
            if c.name = "stroke_time:sql" then "validdate"
            else if c.name = "stroke_lat:d" then "lat"
            else if c.name = "stroke_lon:d" then "lon"
            else c.name }) ∧
      df'.hasCol "validdate" = true ∧
      df'.hasCol "lat" = true ∧
      df'.hasCol "lon" = true ∧
      df'.hasCol "stroke_time:sql" = false ∧
      df'.hasCol "stroke_lat:d" = false ∧
      df'.hasCol "stroke_lon:d" = false ∧
      df'.columns.map Series.values = df.columns.map Series.values := by
  classical
  set f1 : Series α → Series α := fun c =>
    if c.name = "stroke_time:sql" then { c with name := "validdate" } else c with hf1
  set f2 : Series α → Series α := fun c =>
    if c.name = "stroke_lat:d" then { c with name := "lat" } else c with hf2
  set f3 : Series α → Series α := fun c =>
    if c.name = "stroke_lon:d" then { c with name := "lon" } else c with hf3
  have hcol2 : (DataFrame.mk (df.columns.map f1)).hasCol "stroke_lat:d" = true := by
    rcases (hasCol_iff df _).mp h2 with ⟨c, hc, hn⟩
    refine (hasCol_iff _ _).mpr ⟨f1 c, List.mem_map_of_mem f1 hc, ?_⟩
    simp [hf1, hn]
  have hcol3 : (DataFrame.mk ((df.columns.map f1).map f2)).hasCol "stroke_lon:d" = true := by
    rcases (hasCol_iff df _).mp h3 with ⟨c, hc, hn⟩
    refine (hasCol_iff _ _).mpr
      ⟨f2 (f1 c), List.mem_map_of_mem f2 (List.mem_map_of_mem f1 hc), ?_⟩
    simp [hf1, hf2, hn]
  refine ⟨DataFrame.mk (((df.columns.map f1).map f2).map f3), ?_, ?_, ?_, ?_, ?_, ?_, ?_, ?_, ?_⟩
  · simp only [query_lightning, if_pos rfl, hparse]
    simp only [DataFrame.rename, h1, hcol2, hcol3, if_pos rfl, if_true]
  · simp only [List.map_map]
    refine List.map_congr_left fun c _ => ?_
    simp only [Function.comp, hf1, hf2, hf3]
    by_cases e1 : c.name = "stroke_time:sql" <;>
      by_cases e2 : c.name = "stroke_lat:d" <;>
        by_cases e3 : c.name = "stroke_lon:d" <;>
          simp_all
  · rcases (hasCol_iff df _).mp h1 with ⟨c, hc, hn⟩
    refine (hasCol_iff _ _).mpr
      ⟨f3 (f2 (f1 c)),
        List.mem_map_of_mem f3 (List.mem_map_of_mem f2 (List.mem_map_of_mem f1 hc)), ?_⟩
    simp [hf1, hf2, hf3, hn]
  · rcases (hasCol_iff df _).mp h2 with ⟨c, hc, hn⟩
    refine (hasCol_iff _ _).mpr
      ⟨f3 (f2 (f1 c)),
        List.mem_map_of_mem f3 (List.mem_map_of_mem f2 (List.mem_map_of_mem f1 hc)), ?_⟩
    simp [hf1, hf2, hf3, hn]
  · rcases (hasCol_iff df _).mp h3 with ⟨c, hc, hn⟩
    refine (hasCol_iff _ _).mpr
      ⟨f3 (f2 (f1 c)),
        List.mem_map_of_mem f3 (List.mem_map_of_mem f2 (List.mem_map_of_mem f1 hc)), ?_⟩
    simp [hf1, hf2, hf3, hn]
  · rw [Bool.eq_false_iff]
    intro hcon
    rcases (hasCol_iff _ _).mp hcon with ⟨c', hc', hn'⟩
    rcases List.mem_map.mp hc' with ⟨c2, hc2, rfl⟩
    rcases List.mem_map.mp hc2 with ⟨c1, hc1, rfl⟩
    rcases List.mem_map.mp hc1 with ⟨c0, _, rfl⟩
    revert hn'
    simp only [hf1, hf2, hf3]
    by_cases e1 : c0.name = "stroke_time:sql" <;>
      by_cases e2 : c0.name = "stroke_lat:d" <;>
        by_cases e3 : c0.name = "stroke_lon:d" <;>
          simp_all
  · rw [Bool.eq_false_iff]
    intro hcon
    rcases (hasCol_iff _ _).mp hcon with ⟨c', hc', hn'⟩
    rcases List.mem_map.mp hc' with ⟨c2, hc2, rfl⟩
    rcases List.mem_map.mp hc2 with ⟨c1, hc1, rfl⟩
    rcases List.mem_map.mp hc1 with ⟨c0, _, rfl⟩
    revert hn'
    simp only [hf1, hf2, hf3]
    by_cases e1 : c0.name = "stroke_time:sql" <;>
      by_cases e2 : c0.name = "stroke_lat:d" <;>
        by_cases e3 : c0.name = "stroke_lon:d" <;>
          simp_all
  · rw [Bool.eq_false_iff]
    intro hcon
    rcases (hasCol_iff _ _).mp hcon with ⟨c', hc', hn'⟩
    rcases List.mem_map.mp hc' with ⟨c2, hc2, rfl⟩
    rcases List.mem_map.mp hc2 with ⟨c1, hc1, rfl⟩
    rcases List.mem_map.mp hc1 with ⟨c0, _, rfl⟩
    revert hn'
    simp only [hf1, hf2, hf3]
    by_cases e1 : c0.name = "stroke_time:sql" <;>
      by_cases e2 : c0.name = "stroke_lat:d" <;>
        by_cases e3 : c0.name = "stroke_lon:d" <;>
          simp_all
  · simp only [List.map_map]
    refine List.map_congr_left fun c _ => ?_
    simp only [Function.comp, hf1, hf2, hf3]
    by_cases e1 : c.name = "stroke_time:sql" <;>
      by_cases e2 : c.name = "stroke_lat:d" <;>
        by_cases e3 : c.name = "stroke_lon:d" <;>
          simp_all

/-- C9 witness: a concrete one-row lightning body with the three stroke
columns. -/
theorem c9_lightning_rename_witness :
    (parse_response_to_df Int "stroke_time:sql;stroke_lat:d;stroke_lon:d\n2022-01-01;47.5;8.5" =
      .ok ⟨[⟨"stroke_time:sql", [.utf8 "2022-01-01"]⟩,
            ⟨"stroke_lat:d", [.floatOfStr "47.5"]⟩,
            ⟨"stroke_lon:d", [.floatOfStr "8.5"]⟩]⟩) ∧
    ∃ df' : DataFrame Int,
      query_lightning (.ok 200 "stroke_time:sql;stroke_lat:d;stroke_lon:d\n2022-01-01;47.5;8.5")
          (fun n : Int => toString n)
          ⟨⟨2022, 5, 20, 10, 0, 0, 0⟩, ⟨2022, 5, 21, 10, 0, 0, 0⟩, none⟩
          { lat_min := 45, lat_max := 47, lon_min := 5, lon_max := 10,
            lat_res := 0, lon_res := 0 } = .ok df' ∧
      df'.columns = (DataFrame.columns
        ⟨[⟨"stroke_time:sql", [.utf8 "2022-01-01"]⟩,
          ⟨"stroke_lat:d", [.floatOfStr "47.5"]⟩,
          ⟨"stroke_lon:d", [.floatOfStr "8.5"]⟩]⟩).map (fun c =>
        { c with name :=
            if c.name = "stroke_time:sql" then "validdate"
            else if c.name = "stroke_lat:d" then "lat"
            else if c.name = "stroke_lon:d" then "lon"
            else c.name }) ∧
      df'.hasCol "validdate" = true ∧
      df'.hasCol "lat" = true ∧
      df'.hasCol "lon" = true ∧
      df'.hasCol "stroke_time:sql" = false ∧
      df'.hasCol "stroke_lat:d" = false ∧
      df'.hasCol "stroke_lon:d" = false ∧
      df'.columns.map Series.values = (DataFrame.columns
        ⟨[⟨"stroke_time:sql", [.utf8 "2022-01-01"]⟩,
          ⟨"stroke_lat:d", [.floatOfStr "47.5"]⟩,
          ⟨"stroke_lon:d", [.floatOfStr "8.5"]⟩]⟩).map Series.values :=
  ⟨rfl,
    c9_lightning_rename Int (fun n : Int => toString n)
      ⟨⟨2022, 5, 20, 10, 0, 0, 0⟩, ⟨2022, 5, 21, 10, 0, 0, 0⟩, none⟩
      { lat_min := 45, lat_max := 47, lon_min := 5, lon_max := 10,
        lat_res := 0, lon_res := 0 }
      "stroke_time:sql;stroke_lat:d;stroke_lon:d\n2022-01-01;47.5;8.5"
      ⟨[⟨"stroke_time:sql", [.utf8 "2022-01-01"]⟩,
        ⟨"stroke_lat:d", [.floatOfStr "47.5"]⟩,
        ⟨"stroke_lon:d", [.floatOfStr "8.5"]⟩]⟩
      rfl (by decide) (by decide) (by decide)⟩

/-- C2 (confirmed): for a singleton coordinate list `query_time_series`
prepends constant `lat`/`lon` columns equal to the point's coordinates —
the parsed frame follows unchanged — while for two or more points the
parsed response is returned as is. -/
theorem c2_singleton_latlon (α : Type) (toStr : α → String) (ts : TimeSeries)
    (d : Duration) (hd : ts.timedelta = some d) (params : List String)
    (p : Point α) (opts : Option (List String)) (body : String) (df : DataFrame α)
    (hparse : parse_response_to_df α body = .ok df) :
    (query_time_series (.ok 200 body) toStr ts params [p] opts =
      some (.ok (df_add_latlon df p))) ∧
    ((df_add_latlon df p).columns =
      { name := "lat", values := List.replicate df.height (.float64 p.lat) } ::
      { name := "lon", values := List.replicate df.height (.float64 p.lon) } ::
      df.columns) ∧
    (∀ coords : List (Point α), 2 ≤ coords.length →
      query_time_series (.ok 200 body) toStr ts params coords opts =
        some (.ok df)) := by
  refine ⟨?_, rfl, fun coords hlen => ?_⟩
  · simp [query_time_series, build_ts_query_specs, TimeSeries.display, hd, hparse]
  · have hne : coords.length ≠ 1 := by omega
    simp [query_time_series, build_ts_query_specs, TimeSeries.display, hd, hparse, hne]

/-- C2 witness: a concrete single-point call over a two-row body, with the
hypotheses discharged by evaluation. -/
theorem c2_singleton_latlon_witness :
    (parse_response_to_df Int "validdate;t_2m:C\n2022-05-17T12:00:00Z;5.5\n2022-05-17T13:00:00Z;6.5" =
      .ok ⟨[⟨"validdate", [.utf8 "2022-05-17T12:00:00Z", .utf8 "2022-05-17T13:00:00Z"]⟩,
            ⟨"t_2m:C", [.floatOfStr "5.5", .floatOfStr "6.5"]⟩]⟩) ∧
    (query_time_series (.ok 200 "validdate;t_2m:C\n2022-05-17T12:00:00Z;5.5\n2022-05-17T13:00:00Z;6.5")
        (fun n : Int => toString n)
        ⟨⟨2022, 5, 17, 12, 0, 0, 0⟩, ⟨2022, 5, 18, 12, 0, 0, 0⟩, some ⟨3600, 0⟩⟩
        ["t_2m:C"] [⟨52, 13⟩] none =
      some (.ok (df_add_latlon
        ⟨[⟨"validdate", [.utf8 "2022-05-17T12:00:00Z", .utf8 "2022-05-17T13:00:00Z"]⟩,
          ⟨"t_2m:C", [.floatOfStr "5.5", .floatOfStr "6.5"]⟩]⟩ ⟨52, 13⟩))) :=
  ⟨rfl,
    (c2_singleton_latlon Int (fun n : Int => toString n)
      ⟨⟨2022, 5, 17, 12, 0, 0, 0⟩, ⟨2022, 5, 18, 12, 0, 0, 0⟩, some ⟨3600, 0⟩⟩
      ⟨3600, 0⟩ rfl ["t_2m:C"] ⟨52, 13⟩ none
      "validdate;t_2m:C\n2022-05-17T12:00:00Z;5.5\n2022-05-17T13:00:00Z;6.5"
      ⟨[⟨"validdate", [.utf8 "2022-05-17T12:00:00Z", .utf8 "2022-05-17T13:00:00Z"]⟩,
        ⟨"t_2m:C", [.floatOfStr "5.5", .floatOfStr "6.5"]⟩]⟩
      rfl).1⟩

/-- Helper: `create_path` never touches the files, only the directories. -/
theorem create_path_files (fs : FileSystem) (f : String) (fs1 : FileSystem)
    (h : create_path fs f = some fs1) : fs1.files = fs.files := by
  unfold create_path at h
  cases hp : parentDir f with
  | none => rw [hp] at h; cases h
  | some dir =>
    rw [hp] at h
    have h' : (if fs.dirs.contains dir then fs
        else { fs with dirs := dir :: fs.dirs }) = fs1 := Option.some.inj h
    split at h' <;> subst h' <;> rfl

/-- C4 counterexample: `query_netcdf` creates the destination's parent
directory before the request is even made, so an HTTP 403 outcome does NOT
leave the filesystem unchanged — the directory has been created. -/
theorem c4_counterexample :
    query_netcdf (.ok 403 "forbidden") (fun n : Int => toString n)
        ⟨⟨2022, 5, 17, 12, 0, 0, 0⟩, ⟨2022, 5, 18, 12, 0, 0, 0⟩, some ⟨3600, 0⟩⟩
        "t_2m:C"
        { lat_min := 52, lat_max := 53, lon_min := 13, lon_max := 14,
          lat_res := 1, lon_res := 1 }
        "tests/netcdfs/my_netcdf.nc" none ⟨[], []⟩ =
      some (⟨["tests/netcdfs"], []⟩,
        .error (.HttpError "403 Forbidden" "forbidden" 403)) ∧
    (⟨["tests/netcdfs"], []⟩ : FileSystem) ≠ ⟨[], []⟩ :=
  ⟨rfl, by decide⟩

/-- C4 (corrected): both binary-sink methods create the missing parent
directory at the start of the call, before the request and regardless of
its outcome; the payload file itself is written exactly when the response
is HTTP 200 (holding the full body), and on an HttpError or transport
error no file is written or overwritten — the files are exactly those
before the call. -/
theorem c4_amended (α : Type) (toStr : α → String) (ts : TimeSeries)
    (d : Duration) (hd : ts.timedelta = some d) (parameter : String)
    (bbox : BBox α) (t : UtcDateTime) (file_name : String)
    (opts : Option (List String)) (fs fs1 : FileSystem)
    (hcp : create_path fs file_name = some fs1) :
    (∀ body, query_netcdf (.ok 200 body) toStr ts parameter bbox file_name opts fs =
      some (write_file fs1 file_name body, .ok ())) ∧
    (∀ status body, status ≠ 200 →
      query_netcdf (.ok status body) toStr ts parameter bbox file_name opts fs =
        some (fs1, .error (.HttpError (statusLine status) body status))) ∧
    (∀ e, query_netcdf (.err e) toStr ts parameter bbox file_name opts fs =
      some (fs1, .error (.ReqwestError e))) ∧
    (∀ body, query_grid_png (.ok 200 body) toStr t parameter bbox file_name opts fs =
      some (write_file fs1 file_name body, .ok ())) ∧
    (∀ status body, status ≠ 200 →
      query_grid_png (.ok status body) toStr t parameter bbox file_name opts fs =
        some (fs1, .error (.HttpError (statusLine status) body status))) ∧
    (∀ e, query_grid_png (.err e) toStr t parameter bbox file_name opts fs =
      some (fs1, .error (.ReqwestError e))) ∧
    fs1.files = fs.files ∧
    (∀ body, (write_file fs1 file_name body).files.head? = some (file_name, body)) := by
  refine ⟨fun body => ?_, fun status body hs => ?_, fun e => ?_,
    fun body => ?_, fun status body hs => ?_, fun e => ?_,
    create_path_files fs file_name fs1 hcp, fun body => rfl⟩
  · simp [query_netcdf, hcp, build_grid_ts_query_specs, TimeSeries.display, hd]
  · simp [query_netcdf, hcp, build_grid_ts_query_specs, TimeSeries.display, hd, hs]
  · simp [query_netcdf, hcp, build_grid_ts_query_specs, TimeSeries.display, hd]
  · simp [query_grid_png, hcp]
  · simp [query_grid_png, hcp, hs]
  · simp [query_grid_png, hcp]

/-- C4 witness: the amended statement applied at a concrete call — a 200
response writes the payload, a 403 response leaves the files untouched. -/
theorem c4_amended_witness :
    (create_path ⟨[], []⟩ "tests/netcdfs/my_netcdf.nc" =
      some ⟨["tests/netcdfs"], []⟩) ∧
    (query_netcdf (.ok 200 "NETCDF-BYTES") (fun n : Int => toString n)
        ⟨⟨2022, 5, 17, 12, 0, 0, 0⟩, ⟨2022, 5, 18, 12, 0, 0, 0⟩, some ⟨3600, 0⟩⟩
        "t_2m:C"
        { lat_min := 52, lat_max := 53, lon_min := 13, lon_max := 14,
          lat_res := 1, lon_res := 1 }
        "tests/netcdfs/my_netcdf.nc" none ⟨[], []⟩ =
      some (write_file ⟨["tests/netcdfs"], []⟩ "tests/netcdfs/my_netcdf.nc"
        "NETCDF-BYTES", .ok ())) ∧
    (query_netcdf (.ok 403 "forbidden") (fun n : Int => toString n)
        ⟨⟨2022, 5, 17, 12, 0, 0, 0⟩, ⟨2022, 5, 18, 12, 0, 0, 0⟩, some ⟨3600, 0⟩⟩
        "t_2m:C"
        { lat_min := 52, lat_max := 53, lon_min := 13, lon_max := 14,
          lat_res := 1, lon_res := 1 }
        "tests/netcdfs/my_netcdf.nc" none ⟨[], []⟩ =
      some (⟨["tests/netcdfs"], []⟩,
        .error (.HttpError (statusLine 403) "forbidden" 403))) :=
  ⟨rfl,
    (c4_amended Int (fun n : Int => toString n)
      ⟨⟨2022, 5, 17, 12, 0, 0, 0⟩, ⟨2022, 5, 18, 12, 0, 0, 0⟩, some ⟨3600, 0⟩⟩
      ⟨3600, 0⟩ rfl "t_2m:C"
      { lat_min := 52, lat_max := 53, lon_min := 13, lon_max := 14,
        lat_res := 1, lon_res := 1 }
      ⟨2022, 5, 17, 12, 0, 0, 0⟩ "tests/netcdfs/my_netcdf.nc" none
      ⟨[], []⟩ ⟨["tests/netcdfs"], []⟩ rfl).1 "NETCDF-BYTES",
    (c4_amended Int (fun n : Int => toString n)
      ⟨⟨2022, 5, 17, 12, 0, 0, 0⟩, ⟨2022, 5, 18, 12, 0, 0, 0⟩, some ⟨3600, 0⟩⟩
      ⟨3600, 0⟩ rfl "t_2m:C"
      { lat_min := 52, lat_max := 53, lon_min := 13, lon_max := 14,
        lat_res := 1, lon_res := 1 }
      ⟨2022, 5, 17, 12, 0, 0, 0⟩ "tests/netcdfs/my_netcdf.nc" none
      ⟨[], []⟩ ⟨["tests/netcdfs"], []⟩ rfl).2.1 403 "forbidden" (by decide)⟩

/-- C5 (confirmed): every modelled facade method, when the transport
yields a well-formed non-200 response, returns
`HttpError(status.to_string(), body, status)` with the body text verbatim —
no CSV/JSON decode result appears, and the binary-sink methods write no
file. -/
theorem c5_non200_httperror (α : Type) (toStr : α → String) (status : Nat)
    (body : String) (hstatus : status ≠ 200) (ts : TimeSeries) (d : Duration)
    (hd : ts.timedelta = some d) (params : List String) (parameter : String)
    (coords : List (Point α)) (postals : List String)
    (opts : Option (List String)) (bbox : BBox α) (t : UtcDateTime)
    (dates : List UtcDateTime) (decode : String → Except String UStatsResponse)
    (file_name : String) (fs fs1 : FileSystem)
    (hcp : create_path fs file_name = some fs1) :
    query_time_series (.ok status body) toStr ts params coords opts =
      some (.error (.HttpError (statusLine status) body status)) ∧
    query_time_series_postal (α := α) (.ok status body) ts params postals opts =
      some (.error (.HttpError (statusLine status) body status)) ∧
    query_lightning (.ok status body) toStr ts bbox =
      .error (.HttpError (statusLine status) body status) ∧
    query_user_features (.ok status body) decode =
      .error (.HttpError (statusLine status) body status) ∧
    query_grid_pivoted (.ok status body) toStr t parameter bbox opts =
      (.error (.HttpError (statusLine status) body status) :
        Except ConnectorError (DataFrame α)) ∧
    query_grid_unpivoted (.ok status body) toStr t params bbox opts =
      (.error (.HttpError (statusLine status) body status) :
        Except ConnectorError (DataFrame α)) ∧
    query_grid_unpivoted_time_series (.ok status body) toStr ts params bbox opts =
      some (.error (.HttpError (statusLine status) body status)) ∧
    route_query_points (.ok status body) toStr dates coords params =
      .error (.HttpError (statusLine status) body status) ∧
    route_query_postal α (.ok status body) dates postals params =
      .error (.HttpError (statusLine status) body status) ∧
    query_netcdf (.ok status body) toStr ts parameter bbox file_name opts fs =
      some (fs1, .error (.HttpError (statusLine status) body status)) ∧
    query_grid_png (.ok status body) toStr t parameter bbox file_name opts fs =
      some (fs1, .error (.HttpError (statusLine status) body status)) ∧
    fs1.files = fs.files := by
  refine ⟨?_, ?_, ?_, ?_, ?_, ?_, ?_, ?_, ?_, ?_, ?_,
    create_path_files fs file_name fs1 hcp⟩ <;>
  simp [query_time_series, query_time_series_postal, query_lightning,
    query_user_features, query_grid_pivoted, query_grid_unpivoted,
    query_grid_unpivoted_time_series, route_query_points, route_query_postal,
    query_netcdf, query_grid_png, build_ts_query_specs,
    build_grid_ts_query_specs, TimeSeries.display, hd, hstatus, hcp]

/-- C5 witness: the stub-transport test of the specification — HTTP 403
with body `"forbidden"` — applied to `query_time_series` and
`query_netcdf`. -/
theorem c5_non200_httperror_witness :
    ((403 : Nat) ≠ 200) ∧
    (create_path ⟨[], []⟩ "tests/netcdfs/my_netcdf.nc" =
      some ⟨["tests/netcdfs"], []⟩) ∧
    (query_time_series (.ok 403 "forbidden") (fun n : Int => toString n)
        ⟨⟨2022, 5, 17, 12, 0, 0, 0⟩, ⟨2022, 5, 18, 12, 0, 0, 0⟩, some ⟨3600, 0⟩⟩
        ["t_2m:C"] [⟨52, 13⟩] none =
      some (.error (.HttpError (statusLine 403) "forbidden" 403))) ∧
    (query_netcdf (.ok 403 "forbidden") (fun n : Int => toString n)
        ⟨⟨2022, 5, 17, 12, 0, 0, 0⟩, ⟨2022, 5, 18, 12, 0, 0, 0⟩, some ⟨3600, 0⟩⟩
        "t_2m:C"
        { lat_min := 52, lat_max := 53, lon_min := 13, lon_max := 14,
          lat_res := 1, lon_res := 1 }
        "tests/netcdfs/my_netcdf.nc" none ⟨[], []⟩ =
      some (⟨["tests/netcdfs"], []⟩,
        .error (.HttpError (statusLine 403) "forbidden" 403))) :=
  ⟨by decide, rfl,
    (c5_non200_httperror Int (fun n : Int => toString n) 403 "forbidden"
      (by decide)
      ⟨⟨2022, 5, 17, 12, 0, 0, 0⟩, ⟨2022, 5, 18, 12, 0, 0, 0⟩, some ⟨3600, 0⟩⟩
      ⟨3600, 0⟩ rfl ["t_2m:C"] "t_2m:C" [⟨52, 13⟩] ["postal_CH9000"] none
      { lat_min := 52, lat_max := 53, lon_min := 13, lon_max := 14,
        lat_res := 1, lon_res := 1 }
      ⟨2022, 5, 17, 12, 0, 0, 0⟩ [⟨2022, 5, 17, 12, 0, 0, 0⟩]
      (fun _ => .error "stub") "tests/netcdfs/my_netcdf.nc"
      ⟨[], []⟩ ⟨["tests/netcdfs"], []⟩ rfl).1,
    (c5_non200_httperror Int (fun n : Int => toString n) 403 "forbidden"
      (by decide)
      ⟨⟨2022, 5, 17, 12, 0, 0, 0⟩, ⟨2022, 5, 18, 12, 0, 0, 0⟩, some ⟨3600, 0⟩⟩
      ⟨3600, 0⟩ rfl ["t_2m:C"] "t_2m:C" [⟨52, 13⟩] ["postal_CH9000"] none
      { lat_min := 52, lat_max := 53, lon_min := 13, lon_max := 14,
        lat_res := 1, lon_res := 1 }
      ⟨2022, 5, 17, 12, 0, 0, 0⟩ [⟨2022, 5, 17, 12, 0, 0, 0⟩]
      (fun _ => .error "stub") "tests/netcdfs/my_netcdf.nc"
      ⟨[], []⟩ ⟨["tests/netcdfs"], []⟩ rfl).2.2.2.2.2.2.2.2.2.1⟩

/-- C6 witness: the amended statement applied at the repository's
nanosecond-precision test instant with the one-hour step. -/
theorem c6_amended_witness :
    (TimeSeries.timedelta
        ⟨⟨2022, 5, 17, 12, 0, 0, 453829123⟩, ⟨2022, 5, 18, 12, 0, 0, 453829123⟩,
          some ⟨3600, 0⟩⟩ = some ⟨3600, 0⟩) ∧
    (TimeSeries.display
        ⟨⟨2022, 5, 17, 12, 0, 0, 453829123⟩, ⟨2022, 5, 18, 12, 0, 0, 453829123⟩,
          some ⟨3600, 0⟩⟩ =
      some (UtcDateTime.to_rfc3339 ⟨2022, 5, 17, 12, 0, 0, 453829123⟩ ++ "--" ++
        UtcDateTime.to_rfc3339 ⟨2022, 5, 18, 12, 0, 0, 453829123⟩ ++ ":" ++
        ("PT" ++ toString (Int.toNat 3600) ++ "S"))) :=
  ⟨rfl, (c6_amended
    ⟨⟨2022, 5, 17, 12, 0, 0, 453829123⟩, ⟨2022, 5, 18, 12, 0, 0, 453829123⟩,
      some ⟨3600, 0⟩⟩ ⟨3600, 0⟩ rfl (by decide) (by decide) rfl).1⟩

end Meteomatics
